import Mathlib

/-!
Verification of the OBD-II CAN-bus simulator
(`can_simulator.py` and `physics_obd_sim.py`).

The Python source is shallowly embedded: the protocol handlers and the
state-update functions become pure Lean functions.  Python floats are
modelled as exact rationals (`ℚ`); Python's `int(x)` (truncation toward
zero) is `pyInt`; `struct.pack` on out-of-range values, which raises in
Python, is modelled with `Option`.  The irrational constant `math.pi`
that appears in the physics rpm model is passed in as a rational
parameter `piVal`; every property proved below is independent of its
value.  Randomness (`random.*`, `time.time()`) is passed in as explicit
parameters constrained to the range the library call can produce.
-/

namespace CanSim

/-- Python `int(x)` on a float/rational: truncation toward zero. -/
def pyInt (q : ℚ) : ℤ :=
  if 0 ≤ q then ⌊q⌋ else -⌊-q⌋

/-- The `max(0, min(255, v))` clamp applied by the 1-byte PID encoders in
`_handle_current_data_request`. -/
def clampByte (v : ℤ) : ℕ :=
  (max 0 (min 255 v)).toNat

/-- The `max(0, min(65535, v))` clamp applied before the 2-byte packs of
MAF and control-module voltage. -/
def clamp16 (v : ℤ) : ℕ :=
  (max 0 (min 65535 v)).toNat

/-- Big-endian 2-byte pack of a nonnegative value `< 2^16`
(`struct.pack` with format `>H`); Python raises `struct.error` outside
that range, modelled as `none`. -/
def packH (v : ℤ) : Option (List ℕ) :=
  if 0 ≤ v ∧ v ≤ 65535 then some [v.toNat >>> 8, v.toNat &&& 0xFF] else none

/-- Big-endian 4-byte pack of a 32-bit value (`struct.pack` `>I`); only
applied to supported-PID masks, which are always `< 2^32`. -/
def pack4 (m : ℕ) : List ℕ :=
  [(m >>> 24) &&& 0xFF, (m >>> 16) &&& 0xFF, (m >>> 8) &&& 0xFF, m &&& 0xFF]

/-- The `while len < 8: append 0x00` padding used by both response
senders of `can_simulator.py`. -/
def padZerosTo8 (l : List ℕ) : List ℕ :=
  l ++ List.replicate (8 - l.length) 0

/-- Model of `_send_obd_response`: response arbitration id (`0x7E8` for the
broadcast id `0x7DF`, otherwise `request_id + 8`) together with the
8-byte frame `[len(payload)] ++ payload`, truncated to 8 bytes and
right-padded with zeros. -/
def sendObdResponse (requestId : ℕ) (responseData : List ℕ) : ℕ × List ℕ :=
  let responseId := if requestId = 0x7DF then 0x7E8 else requestId + 8
  let full := responseData.length :: responseData
  let full := full.take 8
  (responseId, padZerosTo8 full)

/-- Model of `_send_negative_response`: the id is unconditionally
`request_id + 8`; the frame is `[0x7F, mode, 0x12]`, the offending PID
appended when present, padded with zeros to 8 bytes (no ISO-TP length
byte is prepended). -/
def sendNegativeResponse (requestId : ℕ) (mode : ℕ) (pid : Option ℕ) : ℕ × List ℕ :=
  let negativeResponse := [0x7F, mode, 0x12] ++ (match pid with | some p => [p] | none => [])
  (requestId + 8, padZerosTo8 negativeResponse)

/-- Model of `_initialize_supported_pids`: the per-window lists of supported
PIDs (window bases 0x00, 0x20, 0x40; `.get(range, [])` elsewhere). -/
def supportedPidsTable (pidRange : ℕ) : List ℕ :=
  if pidRange = 0x00 then
    [0x01, 0x04, 0x05, 0x06, 0x07, 0x0A, 0x0B, 0x0C,
     0x0D, 0x0E, 0x0F, 0x10, 0x11, 0x13, 0x14, 0x15, 0x1F]
  else if pidRange = 0x20 then
    [0x21, 0x22, 0x2F, 0x33]
  else if pidRange = 0x40 then
    [0x42, 0x43, 0x46, 0x4D, 0x4E]
  else []

/-- Model of `_get_supported_pids_mask`: fold the window's PID list into a
32-bit mask, setting bit `31 - (pid - (base + 1))` whenever that bit
position lies in `[0, 32)`. -/
def getSupportedPidsMask (pidRange : ℕ) : ℕ :=
  (supportedPidsTable pidRange).foldl
    (fun mask pid =>
      let bitPosition : ℤ := (pid : ℤ) - ((pidRange : ℤ) + 1)
      if 0 ≤ bitPosition ∧ bitPosition < 32 then
        mask ||| (1 <<< (31 - bitPosition.toNat))
      else mask)
    0

/-- Value of one hexadecimal digit character, `none` for non-digits.
Together with `parseHex` this models Python's `int(s, 16)` restricted
to plain hex-digit strings (the only shapes DTC codes take; the exotic
forms `int` also accepts, signs or underscores, are not modelled). -/
def hexDigitVal (c : Char) : Option ℕ :=
  if 48 ≤ c.toNat ∧ c.toNat ≤ 57 then some (c.toNat - 48)
  else if 97 ≤ c.toNat ∧ c.toNat ≤ 102 then some (c.toNat - 87)
  else if 65 ≤ c.toNat ∧ c.toNat ≤ 70 then some (c.toNat - 55)
  else none

/-- Parse a hex-digit string to a number, `none` when a non-digit occurs. -/
def parseHex (cs : List Char) : Option ℕ :=
  cs.foldl (fun acc c => acc.bind (fun a => (hexDigitVal c).map (fun v => a * 16 + v)))
    (some 0)

/-- Model of `_encode_dtc`: a 5-character code maps to 2 bytes; the first letter
selects the two high bits (P→00, C→01, B→10, U→11, anything else falls
through to 0x00 like P); the numeric part is parsed as one 4-digit hex
number, of which only the low 14 bits survive (`(number >> 8) & 0x3F`
and `number & 0xFF`).  Length ≠ 5 or a failed hex parse yields
`[0x00, 0x00]`. -/
def encodeDtc (dtcCode : String) : List ℕ :=
  if dtcCode.length ≠ 5 then [0x00, 0x00]
  else
    let chars := dtcCode.toList
    let firstChar := (chars.headD ' ').toUpper
    let firstByte : ℕ :=
      if firstChar = 'P' then 0x00
      else if firstChar = 'C' then 0x40
      else if firstChar = 'B' then 0x80
      else if firstChar = 'U' then 0xC0
      else 0x00
    match parseHex (chars.drop 1) with
    | some number => [firstByte ||| ((number >>> 8) &&& 0x3F), number &&& 0xFF]
    | none => [0x00, 0x00]

/-- Model of `DiagnosticTroubleCode`: code, description and status string
("pending", "confirmed" or "permanent"), with the occurrence counter.
The two `datetime` fields are not modelled (no claim mentions them). -/
structure DiagnosticTroubleCode where
  code : String
  description : String
  status : String := "pending"
  occurrence_count : ℕ := 1
  deriving DecidableEq, Repr

/-- Predicate `dtc.status == "confirmed"`, the filter used by the mode-03 handler
and the DTC-count bookkeeping. -/
def isConfirmed (d : DiagnosticTroubleCode) : Bool :=
  d.status = "confirmed"

/-- Model of `EngineState` (the fields read by the protocol layer), with the
dataclass defaults. -/
structure EngineState where
  rpm : ℚ := 800
  coolant_temp : ℚ := 90
  oil_temp : ℚ := 85
  intake_air_temp : ℚ := 25
  engine_load : ℚ := 0
  throttle_position : ℚ := 0
  maf_flow : ℚ := 3.5
  fuel_pressure : ℚ := 3.5
  timing_advance : ℚ := 15
  is_running : Bool := true
  runtime_since_start : ℕ := 0
  deriving DecidableEq, Repr

/-- Model of `VehicleState` (the fields read or written by the protocol layer),
with the dataclass defaults. -/
structure VehicleState where
  speed : ℚ := 0
  odometer : ℚ := 125847.5
  fuel_level : ℚ := 75
  battery_voltage : ℚ := 12.6
  ambient_temperature : ℚ := 20
  barometric_pressure : ℚ := 101.3
  gear : ℕ := 0
  speed_limit : ℕ := 60
  mil_status : Bool := false
  dtc_count : ℕ := 0
  fuel_system_status : ℕ := 0x02
  o2_sensor1_voltage : ℚ := 0.45
  o2_sensor2_voltage : ℚ := 0.47
  short_fuel_trim_bank1 : ℚ := 0
  long_fuel_trim_bank1 : ℚ := 0
  deriving DecidableEq, Repr

/-- The simulator state the OBD handlers and the DTC bookkeeping touch:
engine, vehicle and the DTC list of `CANBusSimulator`. -/
structure SimState where
  engine : EngineState := {}
  vehicle : VehicleState := {}
  dtc_codes : List DiagnosticTroubleCode := []
  deriving DecidableEq, Repr

/-- The simulator state right after `__init__` (calibrated dataclass
defaults, empty DTC list). -/
def initialSimState : SimState := {}

/-- Model of `_handle_current_data_request`, as a function from the state
snapshot and the request to the `(arbitration id, frame)` actually
sent; `none` when the length guard drops the frame.  The single branch
that can raise in Python — `struct.pack('>H', int(rpm * 4))` — is
modelled through `packH`; the `except` clause turns that failure into
a negative response exactly as the source does. -/
def handleCurrentDataRequest (st : SimState) (requestId : ℕ) (data : List ℕ) :
    Option (ℕ × List ℕ) :=
  if data.length < 3 then none
  else
    let requestedPid := data.getD 2 0
    let positive (encoded : List ℕ) : Option (ℕ × List ℕ) :=
      some (sendObdResponse requestId ([0x41, requestedPid] ++ encoded))
    if requestedPid = 0x00 then
      positive (pack4 (getSupportedPidsMask 0x00))
    else if requestedPid = 0x0C then
      match packH (pyInt (st.engine.rpm * 4)) with
      | some bs => positive bs
      | none => some (sendNegativeResponse requestId 0x01 (some requestedPid))
    else if requestedPid = 0x0D then
      positive [(pyInt st.vehicle.speed).toNat]
    else if requestedPid = 0x05 then
      positive [clampByte (pyInt (st.engine.coolant_temp + 40))]
    else if requestedPid = 0x04 then
      positive [clampByte (pyInt (st.engine.engine_load * 255 / 100))]
    else if requestedPid = 0x11 then
      positive [clampByte (pyInt (st.engine.throttle_position * 255 / 100))]
    else if requestedPid = 0x0F then
      positive [clampByte (pyInt (st.engine.intake_air_temp + 40))]
    else if requestedPid = 0x10 then
      let c := clamp16 (pyInt (st.engine.maf_flow * 100))
      positive [c >>> 8, c &&& 0xFF]
    else if requestedPid = 0x2F then
      positive [clampByte (pyInt (st.vehicle.fuel_level * 255 / 100))]
    else if requestedPid = 0x42 then
      let c := clamp16 (pyInt (st.vehicle.battery_voltage * 1000))
      positive [c >>> 8, c &&& 0xFF]
    else if requestedPid = 0x46 then
      positive [clampByte (pyInt (st.vehicle.ambient_temperature + 40))]
    else if requestedPid = 0x0A then
      positive [clampByte (pyInt (st.engine.fuel_pressure * 100 / 3))]
    else if requestedPid = 0x0E then
      positive [clampByte (pyInt ((st.engine.timing_advance + 64) * 2))]
    else if requestedPid = 0x14 then
      positive [clampByte (pyInt (st.vehicle.o2_sensor1_voltage * 200)), 0xFF]
    else if requestedPid = 0x06 then
      positive [clampByte (pyInt (st.vehicle.short_fuel_trim_bank1 * 128 / 100 + 128))]
    else if requestedPid = 0x07 then
      positive [clampByte (pyInt (st.vehicle.long_fuel_trim_bank1 * 128 / 100 + 128))]
    else if requestedPid = 0x1F then
      let r := min 65535 st.engine.runtime_since_start
      positive [r >>> 8, r &&& 0xFF]
    else if requestedPid = 0x33 then
      positive [clampByte (pyInt st.vehicle.barometric_pressure)]
    else if requestedPid = 0xA5 then
      positive [st.vehicle.gear]
    else if requestedPid = 0xA8 then
      positive [st.vehicle.speed_limit]
    else
      some (sendNegativeResponse requestId 0x01 (some requestedPid))

/-- The PIDs the mode-01 handler recognizes (every other PID falls into
its final `else` branch, which sends the negative response). -/
def currentDataPids : List ℕ :=
  [0x00, 0x0C, 0x0D, 0x05, 0x04, 0x11, 0x0F, 0x10, 0x2F, 0x42,
   0x46, 0x0A, 0x0E, 0x14, 0x06, 0x07, 0x1F, 0x33, 0xA5, 0xA8]

/-- Model of `_handle_diagnostic_codes_request`, the payload handed to
`_send_obd_response`: `0x43`, the count of confirmed DTCs, then the
2-byte encodings of the confirmed DTCs among the first three stored
ones (`self.dtc_codes[:3]`). -/
def handleDiagnosticCodesPayload (dtcCodes : List DiagnosticTroubleCode) : List ℕ :=
  [0x43, (dtcCodes.filter isConfirmed).length] ++
    ((dtcCodes.take 3).filter isConfirmed).flatMap (fun d => encodeDtc d.code)

/-- Model of `_handle_clear_codes_request`, the state mutation: clear the DTC
list, clear MIL, zero the counter. -/
def clearCodes (s : SimState) : SimState :=
  { s with dtc_codes := [],
           vehicle := { s.vehicle with mil_status := false, dtc_count := 0 } }

/-- The demonstration VIN served by mode 09, byte by byte. -/
def vinBytes : List ℕ := ("1HGBH41JXMN109186".toList).map Char.toNat

/-- The demonstration calibration id (already 15 chars, so `[:16]` is
the identity), byte by byte. -/
def calIdBytes : List ℕ := ("CAL001234567890".toList).map Char.toNat

/-- Model of `_handle_vehicle_info_request`.  Note that the source reads the
sub-function from `request.data[1]` — the byte the dispatcher already
matched against the mode 0x09 — not from `request.data[2]`. -/
def handleVehicleInfoRequest (requestId : ℕ) (data : List ℕ) : Option (ℕ × List ℕ) :=
  if data.length < 2 then none
  else
    let infoType := data.getD 1 0
    if infoType = 0x02 then
      some (sendObdResponse requestId ([0x49, infoType, 1] ++ vinBytes))
    else if infoType = 0x04 then
      some (sendObdResponse requestId ([0x49, infoType, 1] ++ calIdBytes))
    else
      some (sendNegativeResponse requestId 0x09 (some infoType))

/-- Model of `_process_can_message` of `can_simulator.py`: accept ids `0x7DF`
and `0x7E0`–`0x7E7`, require at least 3 data bytes, dispatch on the
mode byte `data[1]`.  The returned value is the `(arbitration id,
frame)` transmitted, `none` when the message is dropped silently.  The
mode-04 branch also clears the DTC state (`clearCodes`); here only the
transmitted response is returned. -/
def processCanSimMessage (st : SimState) (arbitrationId : ℕ) (data : List ℕ) :
    Option (ℕ × List ℕ) :=
  if ¬(arbitrationId = 0x7DF ∨ (0x7E0 ≤ arbitrationId ∧ arbitrationId ≤ 0x7E7)) then none
  else if data.length < 3 then none
  else
    let mode := data.getD 1 0
    if mode = 0x01 then handleCurrentDataRequest st arbitrationId data
    else if mode = 0x03 then
      some (sendObdResponse arbitrationId (handleDiagnosticCodesPayload st.dtc_codes))
    else if mode = 0x04 then
      some (sendObdResponse arbitrationId [0x44])
    else if mode = 0x09 then handleVehicleInfoRequest arbitrationId data
    else
      some (sendNegativeResponse arbitrationId mode none)

/-- The three demonstration DTCs of `_initialize_demo_dtcs`. -/
def demoDtcCodes : List DiagnosticTroubleCode :=
  [{ code := "P0420",
     description := "Эффективность катализатора ниже порога (банк 1)",
     status := "confirmed" },
   { code := "P0171",
     description := "Слишком бедная смесь (банк 1)",
     status := "pending" },
   { code := "P0301",
     description := "Пропуски зажигания в цилиндре 1",
     status := "confirmed" }]

/-- Model of `_initialize_demo_dtcs`, the branch taken with probability 0.7:
extend the DTC list with the drawn sample, raise MIL unconditionally,
and set `dtc_count` to the **total** number of stored codes
(`len(self.dtc_codes)`), confirmed or not.  The drawn `sample` stands
for `random.sample(demo_codes, random.randint(1, 2))`. -/
def initializeDemoDtcs (sample : List DiagnosticTroubleCode) (s : SimState) : SimState :=
  let dtcs := s.dtc_codes ++ sample
  { s with dtc_codes := dtcs,
           vehicle := { s.vehicle with mil_status := true, dtc_count := dtcs.length } }

/-- What `random.sample(demo_codes, random.randint(1, 2))` can return:
one or two distinct elements of the demo catalogue. -/
def DemoSampleOk (sample : List DiagnosticTroubleCode) : Prop :=
  (sample.length = 1 ∨ sample.length = 2) ∧ sample.Nodup ∧
    ∀ d ∈ sample, d ∈ demoDtcCodes

instance (sample : List DiagnosticTroubleCode) : Decidable (DemoSampleOk sample) := by
  unfold DemoSampleOk; infer_instance

/-- The fault catalogue of `_add_random_dtc` (code, description). -/
def possibleRandomCodes : List (String × String) :=
  [("P0100", "Неисправность датчика массового расхода воздуха"),
   ("P0110", "Неисправность датчика температуры воздуха на впуске"),
   ("P0130", "Неисправность датчика кислорода (банк 1, датчик 1)"),
   ("P0340", "Неисправность датчика положения распредвала"),
   ("P0505", "Неисправность системы управления холостым ходом"),
   ("U0001", "Высокоскоростная CAN шина связи")]

/-- Model of `_add_random_dtc`: when fewer than 5 codes are stored and the drawn
code is absent, append it as `pending`; with the 30 % coin (`promote`)
it is immediately promoted to `confirmed`, which also raises MIL.
`dtc_count` is never touched. -/
def addRandomDtc (choice : String × String) (promote : Bool) (s : SimState) : SimState :=
  if s.dtc_codes.length < 5 then
    if s.dtc_codes.any (fun dtc => dtc.code = choice.1) then s
    else
      let newDtc : DiagnosticTroubleCode :=
        { code := choice.1, description := choice.2,
          status := if promote then "confirmed" else "pending" }
      { s with dtc_codes := s.dtc_codes ++ [newDtc],
               vehicle := { s.vehicle with
                 mil_status := if promote then true else s.vehicle.mil_status } }
  else s

/-- The states the DTC bookkeeping can reach: the fresh state, the
one-off demonstration initialization performed at startup, the random
DTC injection of a simulation tick, and the mode-04 clear.  Ticks that
draw no DTC leave these fields unchanged and need no constructor. -/
inductive ReachableSim : SimState → Prop
  | start : ReachableSim initialSimState
  | demo (sample : List DiagnosticTroubleCode) :
      DemoSampleOk sample → ReachableSim (initializeDemoDtcs sample initialSimState)
  | tick (s : SimState) (choice : String × String) (promote : Bool) :
      ReachableSim s → choice ∈ possibleRandomCodes →
      ReachableSim (addRandomDtc choice promote s)
  | clear (s : SimState) : ReachableSim s → ReachableSim (clearCodes s)

/-- The invariant claimed of the DTC bookkeeping: the stored counter
matches the number of confirmed DTCs, and MIL is lit exactly when it
is positive. -/
def DtcInvariant (s : SimState) : Prop :=
  s.vehicle.dtc_count = (s.dtc_codes.filter isConfirmed).length ∧
    (s.vehicle.mil_status = true ↔ 0 < s.vehicle.dtc_count)

instance (s : SimState) : Decidable (DtcInvariant s) := by
  unfold DtcInvariant; infer_instance

/-- Model of `PhysicsState` of `physics_obd_sim.py`, with its dataclass
defaults (vehicle constants included). -/
structure PhysicsState where
  speed : ℚ := 0
  acceleration : ℚ := 0
  rpm : ℚ := 800
  throttle : ℚ := 0
  brake : ℚ := 0
  gear : ℕ := 1
  engine_temp : ℚ := 20
  fuel_level : ℚ := 75
  odometer : ℚ := 12345.6
  mass : ℚ := 1500
  drag_coefficient : ℚ := 0.3
  frontal_area : ℚ := 2.2
  max_power : ℚ := 150
  max_torque : ℚ := 350
  deriving DecidableEq, Repr

/-- The physics simulator's fresh state (`PhysicsState()`). -/
def initialPhysicsState : PhysicsState := {}

/-- Lookup `gear_ratios.get(gear, 1.0)` of `_update_rpm`. -/
def gearRatioPhys (gear : ℕ) : ℚ :=
  if gear = 1 then 3.5
  else if gear = 2 then 2.1
  else if gear = 3 then 1.4
  else if gear = 4 then 1.0
  else if gear = 5 then 0.8
  else if gear = 6 then 0.65
  else 1.0

/-- Model of `_update_rpm`: first-order approach of the rpm toward a target that
is `800 + throttle·20` below 0.1 km/h and otherwise the geared wheel
rpm plus throttle influence clamped to `[800, 6500]`, followed by the
`sin(time·10)·5` fluctuation, passed in as `j ∈ [-5, 5]`.  `piVal`
stands for `math.pi`. -/
def updateRpm (st : PhysicsState) (dt j piVal : ℚ) : PhysicsState :=
  let targetRpm :=
    if st.speed < 0.1 then 800 + st.throttle * 20
    else
      let ratio := gearRatioPhys st.gear
      let wheelRpm := (st.speed * 1000 / 60) / (0.65 * piVal)
      let t := wheelRpm * ratio * 4.1 + st.throttle * 10
      max 800 (min 6500 t)
  let rpmDiff := targetRpm - st.rpm
  let rpm1 := st.rpm + rpmDiff * dt * 3.0
  { st with rpm := rpm1 + j }

/-- Model of `_update_gear`: automatic gear selection from the speed. -/
def updateGear (st : PhysicsState) : PhysicsState :=
  let speed := st.speed
  { st with gear :=
      if speed < 20 then 1
      else if speed < 40 then 2
      else if speed < 60 then 3
      else if speed < 80 then 4
      else if speed < 100 then 5
      else 6 }

/-- Model of `_update_physics`: longitudinal force balance, speed integration
clamped at zero, odometer integration, then `_update_rpm` and
`_update_gear`. -/
def updatePhysics (st : PhysicsState) (dt j piVal : ℚ) : PhysicsState :=
  let speedMs := st.speed / 3.6
  let engineForce :=
    if st.throttle > 0 then
      let rpmNormalized := st.rpm / 6000
      let powerFactor := rpmNormalized * (2 - rpmNormalized)
      min ((st.max_power * 1000 * powerFactor * st.throttle / 100) / max speedMs 1.0)
        (st.max_torque * 10)
    else 0
  let brakeForce := st.brake * 150
  let airResistance := 0.5 * 1.225 * st.drag_coefficient * st.frontal_area * speedMs * speedMs
  let rollingResistance := 0.015 * st.mass * 9.81
  let totalForce := engineForce - brakeForce - airResistance - rollingResistance
  let accel := totalForce / st.mass
  let speedMs2 := max 0 (speedMs + accel * dt)
  let speed' := speedMs2 * 3.6
  let odometer' := if speed' > 0 then st.odometer + (speed' / 3600) * dt else st.odometer
  let st1 := { st with speed := speed', acceleration := accel, odometer := odometer' }
  updateGear (updateRpm st1 dt j piVal)

/-- Model of `_get_obd2_response`: the data bytes for the seven recognized PIDs,
`none` for anything else. -/
def getObd2ResponsePhys (st : PhysicsState) (pid : ℕ) : Option (List ℕ) :=
  if pid = 0x0C then
    let rpmValue := (pyInt (st.rpm * 4)).toNat
    some [(rpmValue >>> 8) &&& 0xFF, rpmValue &&& 0xFF]
  else if pid = 0x0D then
    some [(pyInt st.speed).toNat]
  else if pid = 0x05 then
    some [(pyInt (st.engine_temp + 40)).toNat]
  else if pid = 0x11 then
    some [(pyInt (st.throttle * 2.55)).toNat]
  else if pid = 0x04 then
    let load := st.throttle * 0.7 + (st.rpm / 6000) * 30
    some [(pyInt (load * 2.55)).toNat]
  else if pid = 0x2F then
    some [(pyInt (st.fuel_level * 2.55)).toNat]
  else if pid = 0x31 then
    let odometerValue := (pyInt (st.odometer * 10)).toNat
    some [(odometerValue >>> 8) &&& 0xFF, odometerValue &&& 0xFF]
  else none

/-- Model of `_send_obd2_response`: the frame `[len(data)+2, 0x41, pid] ++ data`
zero-padded and truncated to 8 bytes, always on arbitration id 0x7E8. -/
def sendObd2ResponsePhys (pid : ℕ) (data : List ℕ) : ℕ × List ℕ :=
  let responseData := [data.length + 2, 0x41, pid] ++ data
  let responseData := responseData ++ List.replicate (8 - responseData.length) 0
  (0x7E8, responseData.take 8)

/-- Model of `_process_can_message` of `physics_obd_sim.py`: only mode-01
requests with `data[0] ≥ 2` and one of the seven known PIDs produce a
frame; everything else is dropped without any reply (the physics
simulator has no negative-response path).  Python's `if response:`
truthiness test is the `isEmpty` check. -/
def processCanMessagePhys (st : PhysicsState) (arbitrationId : ℕ) (data : List ℕ) :
    Option (ℕ × List ℕ) :=
  if ¬(arbitrationId = 0x7DF ∨ (0x7E0 ≤ arbitrationId ∧ arbitrationId ≤ 0x7E7)) then none
  else if data.length < 3 then none
  else
    let length := data.getD 0 0
    let mode := data.getD 1 0
    if mode = 0x01 ∧ 2 ≤ length then
      let pid := data.getD 2 0
      match getObd2ResponsePhys st pid with
      | some response =>
          if response.isEmpty then none else some (sendObd2ResponsePhys pid response)
      | none => none
    else none

/-- The PIDs `_get_obd2_response` recognizes. -/
def physicsPids : List ℕ := [0x04, 0x05, 0x0C, 0x0D, 0x11, 0x2F, 0x31]

/-! ## Helper lemmas -/

/-- Both return paths of `_encode_dtc` produce exactly two bytes. -/
theorem encodeDtc_length (s : String) : (encodeDtc s).length = 2 := by
  unfold encodeDtc
  split
  · rfl
  · simp only
    split <;> rfl

/-- A hex digit's value is below 16. -/
theorem hexDigitVal_lt_16 {c : Char} {v : ℕ} (h : hexDigitVal c = some v) : v < 16 := by
  rw [hexDigitVal] at h
  split at h
  · cases h; omega
  · split at h
    · cases h; omega
    · split at h
      · cases h; omega
      · cases h

/-- A PID outside the recognized set makes `_get_obd2_response` return
`None`. -/
theorem getObd2ResponsePhys_none (st : PhysicsState) (pid : ℕ)
    (h : pid ∉ physicsPids) : getObd2ResponsePhys st pid = none := by
  simp only [physicsPids, List.mem_cons, List.not_mem_nil, or_false, not_or] at h
  obtain ⟨h4, h5, hc, hd, h11, h2f, h31⟩ := h
  unfold getObd2ResponsePhys
  simp [hc, hd, h5, h11, h4, h2f, h31]

/-- Bitwise or of a DTC letter base with a value below 64 is plain
addition (the letter occupies the two high bits of the byte). -/
theorem letterBase_or_eq_add : ∀ m : ℕ, m < 64 →
    0 ||| m = 0 + m ∧ 64 ||| m = 64 + m ∧ 128 ||| m = 128 + m ∧ 192 ||| m = 192 + m := by
  decide

/-- Python's `& 0xFF` on a nonnegative int is reduction mod 256. -/
theorem and_255_eq_mod (x : ℕ) : x &&& 255 = x % 256 := by
  have h := Nat.and_pow_two_sub_one_eq_mod x 8
  norm_num at h
  exact h

/-- Python's `& 0x3F` on a nonnegative int is reduction mod 64. -/
theorem and_63_eq_mod (x : ℕ) : x &&& 63 = x % 64 := by
  have h := Nat.and_pow_two_sub_one_eq_mod x 6
  norm_num at h
  exact h

/-- Python's `>> 8` on a nonnegative int is division by 256. -/
theorem shiftRight_8_eq_div (x : ℕ) : x >>> 8 = x / 256 := by
  rw [Nat.shiftRight_eq_div_pow]

/-- One first-order step `r + (a - r)·d` toward a target
`a ∈ [800, 6500]` with gain `d ∈ [0, 1]`, followed by a jitter
`j ∈ [-5, 5]`, stays inside `[795, 6505]`. -/
theorem firstOrderStep_bounds (r a d j : ℚ) (hr1 : 800 ≤ r) (hr2 : r ≤ 6500)
    (ha1 : 800 ≤ a) (ha2 : a ≤ 6500) (hd0 : 0 ≤ d) (hd1 : d ≤ 1)
    (hj1 : -5 ≤ j) (hj2 : j ≤ 5) :
    795 ≤ r + (a - r) * d + j ∧ r + (a - r) * d + j ≤ 6505 := by
  constructor
  · nlinarith [mul_nonneg (by linarith : (0:ℚ) ≤ r - 800) (by linarith : (0:ℚ) ≤ 1 - d),
      mul_nonneg (by linarith : (0:ℚ) ≤ a - 800) hd0]
  · nlinarith [mul_nonneg (by linarith : (0:ℚ) ≤ 6500 - r) (by linarith : (0:ℚ) ≤ 1 - d),
      mul_nonneg (by linarith : (0:ℚ) ≤ 6500 - a) hd0]

/-- The rpm target of `_update_rpm` lies in `[800, 6500]` whenever the
throttle is within `[0, 100]`, and one update step therefore lands in
`[795, 6505]`. -/
theorem updateRpm_bounds (s : PhysicsState) (dt j piVal : ℚ)
    (hdt0 : 0 ≤ dt) (hdt3 : dt * 3 ≤ 1)
    (hr1 : 800 ≤ s.rpm) (hr2 : s.rpm ≤ 6500)
    (ht1 : 0 ≤ s.throttle) (ht2 : s.throttle ≤ 100)
    (hj1 : -5 ≤ j) (hj2 : j ≤ 5) :
    795 ≤ (updateRpm s dt j piVal).rpm ∧ (updateRpm s dt j piVal).rpm ≤ 6505 := by
  unfold updateRpm
  simp only
  by_cases hc : s.speed < 0.1
  · rw [if_pos hc]
    have heq : s.rpm + (800 + s.throttle * 20 - s.rpm) * dt * 3.0 + j =
        s.rpm + (800 + s.throttle * 20 - s.rpm) * (dt * 3) + j := by ring
    rw [heq]
    exact firstOrderStep_bounds s.rpm (800 + s.throttle * 20) (dt * 3) j hr1 hr2
      (by linarith) (by linarith) (by linarith) (by linarith) hj1 hj2
  · rw [if_neg hc]
    have ha1 : 800 ≤ max 800 (min 6500 (s.speed * 1000 / 60 / (0.65 * piVal) *
        gearRatioPhys s.gear * 4.1 + s.throttle * 10)) := le_max_left _ _
    have ha2 : max 800 (min 6500 (s.speed * 1000 / 60 / (0.65 * piVal) *
        gearRatioPhys s.gear * 4.1 + s.throttle * 10)) ≤ 6500 :=
      max_le (by norm_num) (min_le_left _ _)
    have heq : ∀ a : ℚ, s.rpm + (a - s.rpm) * dt * 3.0 + j =
        s.rpm + (a - s.rpm) * (dt * 3) + j := fun a => by ring
    rw [heq]
    exact firstOrderStep_bounds s.rpm _ (dt * 3) j hr1 hr2 ha1 ha2
      (by linarith) (by linarith) hj1 hj2

/-- Projections preserved by `_update_gear`. -/
theorem updateGear_rpm (s : PhysicsState) : (updateGear s).rpm = s.rpm := rfl

/-- Speed is untouched by `_update_gear`. -/
theorem updateGear_speed (s : PhysicsState) : (updateGear s).speed = s.speed := rfl

/-- Speed is untouched by `_update_rpm`. -/
theorem updateRpm_speed (s : PhysicsState) (dt j piVal : ℚ) :
    (updateRpm s dt j piVal).speed = s.speed := rfl

/-- Decomposition of `_update_physics`: it rewrites speed (clamped at
zero), acceleration and odometer, then runs `_update_rpm` and
`_update_gear` on the result; rpm and throttle enter `_update_rpm`
unchanged and the new speed is nonnegative. -/
theorem updatePhysics_decomposition (st : PhysicsState) (dt j piVal : ℚ) :
    ∃ s1 : PhysicsState, updatePhysics st dt j piVal = updateGear (updateRpm s1 dt j piVal) ∧
      s1.rpm = st.rpm ∧ s1.throttle = st.throttle ∧ 0 ≤ s1.speed := by
  refine ⟨_, rfl, rfl, rfl, ?_⟩
  exact mul_nonneg (le_max_left 0 _) (by norm_num)

/-! ## Claims -/

/-- C2 (amended).  Positive responses of `can_simulator.py` are sent on
`0x7E8` when the request arrived on the broadcast id `0x7DF` and on
`request_id + 8` otherwise; negative responses are always sent on
`request_id + 8`; the physics simulator sends every response on
`0x7E8` regardless of the request id. -/
theorem C2_response_arbitration_ids :
    (∀ requestId responseData, (sendObdResponse requestId responseData).1 =
        if requestId = 0x7DF then 0x7E8 else requestId + 8) ∧
    (∀ requestId mode pid, (sendNegativeResponse requestId mode pid).1 = requestId + 8) ∧
    (∀ pid data, (sendObd2ResponsePhys pid data).1 = 0x7E8) :=
  ⟨fun _ _ => rfl, fun _ _ _ => rfl, fun _ _ => rfl⟩

/-- C2 counterexample.  A negative response to a broadcast request
(id `0x7DF`) is transmitted on `0x7DF + 8 = 0x7E7`, not on `0x7E8` as
the claim requires for broadcast requests. -/
theorem C2_counterexample :
    (sendNegativeResponse 0x7DF 0x01 (some 0xFF)).1 = 0x7E7 ∧ (0x7E7 : ℕ) ≠ 0x7E8 := by
  decide

/-- C3 (code evaluated at the failing input).  The mode-09 VIN request
frame `[0x02, 0x09, 0x02, ...]` does not produce a VIN response at
all: `_handle_vehicle_info_request` reads the sub-function from
`data[1]`, which the dispatcher guarantees to be the mode byte `0x09`,
so the request falls into the unknown-sub-function branch and the
simulator answers with the negative response
`[0x7F, 0x09, 0x12, 0x09, 0, 0, 0, 0]` on id `0x7E7`; in particular
the payload does not begin with `0x49, 0x02, 0x01`. -/
theorem C3_vin_request_gets_negative_response :
    processCanSimMessage initialSimState 0x7DF [0x02, 0x09, 0x02, 0, 0, 0, 0, 0] =
      some (0x7E7, [0x7F, 0x09, 0x12, 0x09, 0, 0, 0, 0]) ∧
    [0x7F, 0x09, 0x12, 0x09, 0, 0, 0, 0].take 3 ≠ [0x49, 0x02, 0x01] ∧
    ([0x7F, 0x09, 0x12, 0x09, 0, 0, 0, 0].drop 1).take 3 ≠ [0x49, 0x02, 0x01] := by
  refine ⟨by decide, by decide, by decide⟩

/-- C5 (amended).  For each configured window base, bit
`31 - (pid - base - 1)` of the supported-PID mask is set exactly when
`pid` is in the window's support list; but no continuation bits are
ever produced: bit 0 of every window's mask is clear (the fold can only
set bit 0 for `pid = base + 32`, which no support list contains), even
though further windows have entries. -/
theorem C5_supported_pid_mask_bits (base k : ℕ)
    (hb : base ∈ [0x00, 0x20, 0x40]) (hk : k < 32) :
    (Nat.testBit (getSupportedPidsMask base) (31 - k) ↔
        base + 1 + k ∈ supportedPidsTable base) ∧
    Nat.testBit (getSupportedPidsMask base) 0 = false := by
  fin_cases hb <;> revert k hk <;> decide

/-- C5 witness: window 0x00, `k = 11` (PID 0x0C, engine RPM). -/
theorem C5_witness :
    ((0x00 : ℕ) ∈ ([0x00, 0x20, 0x40] : List ℕ) ∧ (11 : ℕ) < 32) ∧
    ((Nat.testBit (getSupportedPidsMask 0x00) (31 - 11) ↔
        0x00 + 1 + 11 ∈ supportedPidsTable 0x00) ∧
      Nat.testBit (getSupportedPidsMask 0x00) 0 = false) :=
  ⟨by decide, C5_supported_pid_mask_bits 0x00 11 (by decide) (by decide)⟩

/-- C5 counterexample.  Bit 0 of window 0x00's mask is clear although
window 0x20 has entries, contradicting the claim that it is set
whenever a further window is supported. -/
theorem C5_counterexample :
    Nat.testBit (getSupportedPidsMask 0x00) 0 = false ∧
    supportedPidsTable 0x20 ≠ [] := by
  decide

/-- C1 (amended).  A mode-0x01 request carrying a PID outside the
handler's recognized set is answered with the 8-byte frame
`[0x7F, 0x01, 0x12, pid, 0, 0, 0, 0]` on arbitration id
`request_id + 8`: the 3-byte negative payload `0x7F, mode, 0x12`
followed by the offending PID and zero padding, with no ISO-TP length
byte prepended. -/
theorem C1_mode01_unsupported_pid_negative_frame
    (st : SimState) (requestId : ℕ) (data : List ℕ)
    (hid : requestId = 0x7DF ∨ (0x7E0 ≤ requestId ∧ requestId ≤ 0x7E7))
    (hlen : 3 ≤ data.length)
    (hmode : data.getD 1 0 = 0x01)
    (hpid : data.getD 2 0 ∉ currentDataPids) :
    processCanSimMessage st requestId data =
      some (requestId + 8, [0x7F, 0x01, 0x12, data.getD 2 0, 0, 0, 0, 0]) := by
  simp only [currentDataPids, List.mem_cons, List.not_mem_nil, or_false, not_or] at hpid
  obtain ⟨n00, n0C, n0D, n05, n04, n11, n0F, n10, n2F, n42,
    n46, n0A, n0E, n14, n06, n07, n1F, n33, nA5, nA8⟩ := hpid
  unfold processCanSimMessage
  rw [if_neg (not_not_intro hid), if_neg (by omega : ¬(data.length < 3))]
  simp only
  rw [if_pos hmode]
  unfold handleCurrentDataRequest
  rw [if_neg (by omega : ¬(data.length < 3))]
  simp only
  rw [if_neg n00, if_neg n0C, if_neg n0D, if_neg n05, if_neg n04, if_neg n11,
    if_neg n0F, if_neg n10, if_neg n2F, if_neg n42, if_neg n46, if_neg n0A,
    if_neg n0E, if_neg n14, if_neg n06, if_neg n07, if_neg n1F, if_neg n33,
    if_neg nA5, if_neg nA8]
  rfl

/-- C1 witness: PID 0xFF requested on the broadcast id. -/
theorem C1_witness :
    (3 ≤ ([0x02, 0x01, 0xFF, 0, 0, 0, 0, 0] : List ℕ).length) ∧
    processCanSimMessage initialSimState 0x7DF [0x02, 0x01, 0xFF, 0, 0, 0, 0, 0] =
      some (0x7DF + 8, [0x7F, 0x01, 0x12, 0xFF, 0, 0, 0, 0]) :=
  ⟨by decide,
   C1_mode01_unsupported_pid_negative_frame initialSimState 0x7DF
     [0x02, 0x01, 0xFF, 0, 0, 0, 0, 0] (Or.inl rfl) (by decide) (by decide) (by decide)⟩

/-- C1 counterexample.  For PID 0xFF the transmitted frame is
`[0x7F, 0x01, 0x12, 0xFF, 0, 0, 0, 0]`, not the claimed
`[0x03, 0x7F, 0x01, 0x12, 0, 0, 0, 0]`: the length byte is missing and
the PID is appended. -/
theorem C1_counterexample :
    processCanSimMessage initialSimState 0x7DF [0x02, 0x01, 0xFF, 0, 0, 0, 0, 0] =
      some (0x7E7, [0x7F, 0x01, 0x12, 0xFF, 0, 0, 0, 0]) ∧
    ([0x7F, 0x01, 0x12, 0xFF, 0, 0, 0, 0] : List ℕ) ≠
      [0x03, 0x7F, 0x01, 0x12, 0, 0, 0, 0] := by
  refine ⟨by decide, by decide⟩

/-- C4 (amended).  The invariant `dtc_count = |confirmed|` together
with `mil_status ↔ dtc_count > 0` holds in the fresh state and after
every mode-0x04 clear, but the demonstration initialization sets
`dtc_count` to the **total** number of stored DTCs (pending included)
and raises MIL unconditionally, and the random DTC injection of the
simulation tick never updates `dtc_count` at all. -/
theorem C4_dtc_bookkeeping :
    DtcInvariant initialSimState ∧
    (∀ s, DtcInvariant (clearCodes s)) ∧
    (∀ sample, (initializeDemoDtcs sample initialSimState).vehicle.dtc_count =
        sample.length ∧
      (initializeDemoDtcs sample initialSimState).vehicle.mil_status = true) ∧
    (∀ choice promote s,
      (addRandomDtc choice promote s).vehicle.dtc_count = s.vehicle.dtc_count) := by
  refine ⟨by decide, ?_, ?_, ?_⟩
  · intro s
    simp [DtcInvariant, clearCodes]
  · intro sample
    simp [initializeDemoDtcs, initialSimState]
  · intro choice promote s
    unfold addRandomDtc
    split
    · split
      · rfl
      · rfl
    · rfl

/-- C4 counterexample.  Starting the simulator with the demo sample
`[P0171]` (a possible draw: P0171 is in the catalogue and
`random.sample` may return one element) yields a reachable state with
`dtc_count = 1` although no stored DTC is confirmed. -/
theorem C4_counterexample :
    ReachableSim (initializeDemoDtcs
      [{ code := "P0171", description := "Слишком бедная смесь (банк 1)",
         status := "pending" }] initialSimState) ∧
    ¬ DtcInvariant (initializeDemoDtcs
      [{ code := "P0171", description := "Слишком бедная смесь (банк 1)",
         status := "pending" }] initialSimState) := by
  constructor
  · exact ReachableSim.demo _ (by decide)
  · intro hinv
    have h1 := hinv.1
    revert h1
    decide

/-- C7 (confirmed).  The mode-03 payload is `0x43`, then the number of
confirmed DTCs, then at most three 2-byte groups, each group the
encoding of a confirmed stored DTC (in storage order: the confirmed
ones among the first three stored codes). -/
theorem C7_mode03_payload (dtcCodes : List DiagnosticTroubleCode) :
    handleDiagnosticCodesPayload dtcCodes =
      0x43 :: (dtcCodes.filter isConfirmed).length ::
        ((dtcCodes.take 3).filter isConfirmed).flatMap (fun d => encodeDtc d.code) ∧
    ((dtcCodes.take 3).filter isConfirmed).length ≤ 3 ∧
    ((dtcCodes.take 3).filter isConfirmed).Sublist (dtcCodes.filter isConfirmed) ∧
    (((dtcCodes.take 3).filter isConfirmed).flatMap (fun d => encodeDtc d.code)).length =
      2 * ((dtcCodes.take 3).filter isConfirmed).length := by
  refine ⟨rfl, ?_, ?_, ?_⟩
  · calc ((dtcCodes.take 3).filter isConfirmed).length
        ≤ (dtcCodes.take 3).length := List.length_filter_le _ _
      _ ≤ 3 := by simp [List.length_take]
  · exact List.Sublist.filter _ (List.take_sublist 3 dtcCodes)
  · generalize (dtcCodes.take 3).filter isConfirmed = l
    induction l with
    | nil => rfl
    | cons d tl ih => simp [encodeDtc_length, ih]; omega

/-- C6 (amended).  A 5-character code whose last four characters are
hex digits encodes to two bytes: the high two bits of byte 0 are P→00,
C→01, B→10, U→11 (an unrecognized first letter falls back to 00, the
same as P), the next two bits are the second character **mod 4** (its
high bits are masked off by `& 0x3F`), and the remaining 12 bits are
characters 3–5.  Codes of length ≠ 5 or with a non-hex numeric part
encode to `[0x00, 0x00]` through the length guard and the `ValueError`
handler. -/
theorem C6_dtc_encoding_layout (c0 c1 c2 c3 c4 : Char) (v1 v2 v3 v4 : ℕ)
    (h1 : hexDigitVal c1 = some v1) (h2 : hexDigitVal c2 = some v2)
    (h3 : hexDigitVal c3 = some v3) (h4 : hexDigitVal c4 = some v4) :
    encodeDtc (String.mk [c0, c1, c2, c3, c4]) =
      [(if c0.toUpper = 'P' then 0x00
        else if c0.toUpper = 'C' then 0x40
        else if c0.toUpper = 'B' then 0x80
        else if c0.toUpper = 'U' then 0xC0
        else 0x00) + (v1 % 4 * 16 + v2), v3 * 16 + v4] := by
  have b1 := hexDigitVal_lt_16 h1
  have b2 := hexDigitVal_lt_16 h2
  have b3 := hexDigitVal_lt_16 h3
  have b4 := hexDigitVal_lt_16 h4
  have hparse : parseHex [c1, c2, c3, c4] =
      some (((v1 * 16 + v2) * 16 + v3) * 16 + v4) := by
    simp [parseHex, h1, h2, h3, h4]
  have hlen : (String.mk [c0, c1, c2, c3, c4]).length = 5 := rfl
  unfold encodeDtc
  rw [if_neg (not_not_intro hlen)]
  simp only
  have hdrop : (String.mk [c0, c1, c2, c3, c4]).toList.drop 1 = [c1, c2, c3, c4] := rfl
  have hhead : (String.mk [c0, c1, c2, c3, c4]).toList.headD ' ' = c0 := rfl
  rw [hdrop, hhead, hparse]
  have hshift : (((v1 * 16 + v2) * 16 + v3) * 16 + v4) >>> 8 = v1 * 16 + v2 := by
    rw [shiftRight_8_eq_div]
    omega
  have hand63 : (v1 * 16 + v2) &&& 63 = v1 % 4 * 16 + v2 := by
    rw [and_63_eq_mod]
    omega
  have hand255 : (((v1 * 16 + v2) * 16 + v3) * 16 + v4) &&& 255 = v3 * 16 + v4 := by
    rw [and_255_eq_mod]
    omega
  simp only [hshift, hand63, hand255]
  have hm : v1 % 4 * 16 + v2 < 64 := by omega
  have hor := letterBase_or_eq_add (v1 % 4 * 16 + v2) hm
  split_ifs <;> simp [hor.1, hor.2.1, hor.2.2.1, hor.2.2.2]

/-- C6 witness: the well-formed code U1234. -/
theorem C6_witness :
    hexDigitVal '1' = some 1 ∧
    encodeDtc (String.mk ['U', '1', '2', '3', '4']) =
      [(if 'U'.toUpper = 'P' then 0x00
        else if 'U'.toUpper = 'C' then 0x40
        else if 'U'.toUpper = 'B' then 0x80
        else if 'U'.toUpper = 'U' then 0xC0
        else 0x00) + (1 % 4 * 16 + 2), 3 * 16 + 4] :=
  ⟨by decide,
   C6_dtc_encoding_layout 'U' '1' '2' '3' '4' 1 2 3 4
     (by decide) (by decide) (by decide) (by decide)⟩

/-- C6 counterexample.  The malformed code A0420 (first character not
in {P, C, B, U}) does **not** encode to `0x0000`: the unknown letter
falls through to the P prefix and the numeric part is encoded
normally, giving `[0x04, 0x20]`. -/
theorem C6_counterexample :
    encodeDtc "A0420" = [0x04, 0x20] ∧ encodeDtc "A0420" ≠ [0x00, 0x00] := by
  refine ⟨by decide, by decide⟩

/-- C8 (amended).  The 1-byte encoders of `can_simulator.py` clamp to
`[0, 255]` and the 2-byte MAF/voltage clamp caps at 65535, as the
claim states; but the RPM encoder does not clamp — it stays in range
(and `struct.pack` cannot raise) only because `rpm ≤ 7000` keeps
`int(rpm·4) ≤ 28000` — and the physics distance encoder (PID 0x31)
reduces `int(odometer·10)` modulo 2¹⁶, wrapping instead of clamping. -/
theorem C8_encoder_clamping :
    (∀ v : ℤ, clampByte v ≤ 255) ∧
    (∀ v : ℤ, clamp16 v ≤ 65535) ∧
    (∀ rpm : ℚ, 0 ≤ rpm → rpm ≤ 7000 →
      packH (pyInt (rpm * 4)) =
        some [(pyInt (rpm * 4)).toNat >>> 8, (pyInt (rpm * 4)).toNat &&& 0xFF] ∧
      256 * ((pyInt (rpm * 4)).toNat >>> 8) + ((pyInt (rpm * 4)).toNat &&& 0xFF) =
        (pyInt (rpm * 4)).toNat) ∧
    (∀ st : PhysicsState, 0 ≤ st.odometer →
      getObd2ResponsePhys st 0x31 =
        some [((pyInt (st.odometer * 10)).toNat >>> 8) &&& 0xFF,
              (pyInt (st.odometer * 10)).toNat &&& 0xFF] ∧
      256 * (((pyInt (st.odometer * 10)).toNat >>> 8) &&& 0xFF) +
          ((pyInt (st.odometer * 10)).toNat &&& 0xFF) =
        (pyInt (st.odometer * 10)).toNat % 65536) := by
  refine ⟨?_, ?_, ?_, ?_⟩
  · intro v
    unfold clampByte
    omega
  · intro v
    unfold clamp16
    omega
  · intro rpm h0 h7
    have hq0 : (0:ℚ) ≤ rpm * 4 := by linarith
    have hpy : pyInt (rpm * 4) = ⌊rpm * 4⌋ := by unfold pyInt; rw [if_pos hq0]
    have hf0 : 0 ≤ ⌊rpm * 4⌋ := Int.floor_nonneg.mpr hq0
    have hf1 : ⌊rpm * 4⌋ ≤ 28000 := by
      calc ⌊rpm * 4⌋ ≤ ⌊(28000:ℚ)⌋ := Int.floor_le_floor (by linarith)
        _ = 28000 := by norm_num
    constructor
    · unfold packH
      rw [if_pos ⟨by omega, by omega⟩]
    · rw [shiftRight_8_eq_div, and_255_eq_mod]
      omega
  · intro st hodo
    constructor
    · simp [getObd2ResponsePhys]
    · rw [shiftRight_8_eq_div, and_255_eq_mod, and_255_eq_mod]
      omega

/-- C8 witness: the RPM encoder at idle rpm 800 and the distance
encoder at the default physics state. -/
theorem C8_witness :
    ((0:ℚ) ≤ (800:ℚ) ∧ (800:ℚ) ≤ 7000 ∧ (0:ℚ) ≤ initialPhysicsState.odometer) ∧
    (packH (pyInt ((800:ℚ) * 4)) =
        some [(pyInt ((800:ℚ) * 4)).toNat >>> 8, (pyInt ((800:ℚ) * 4)).toNat &&& 0xFF] ∧
      256 * ((pyInt ((800:ℚ) * 4)).toNat >>> 8) + ((pyInt ((800:ℚ) * 4)).toNat &&& 0xFF) =
        (pyInt ((800:ℚ) * 4)).toNat) ∧
    (getObd2ResponsePhys initialPhysicsState 0x31 =
        some [((pyInt (initialPhysicsState.odometer * 10)).toNat >>> 8) &&& 0xFF,
              (pyInt (initialPhysicsState.odometer * 10)).toNat &&& 0xFF] ∧
      256 * (((pyInt (initialPhysicsState.odometer * 10)).toNat >>> 8) &&& 0xFF) +
          ((pyInt (initialPhysicsState.odometer * 10)).toNat &&& 0xFF) =
        (pyInt (initialPhysicsState.odometer * 10)).toNat % 65536) :=
  ⟨⟨by norm_num, by norm_num, by norm_num [initialPhysicsState]⟩,
   C8_encoder_clamping.2.2.1 800 (by norm_num) (by norm_num),
   C8_encoder_clamping.2.2.2 initialPhysicsState (by norm_num [initialPhysicsState])⟩

/-- C8 counterexample.  At the default physics state the odometer is
12345.6 km, so `int(odometer·10) = 123456`; the encoder emits
`[0xE2, 0x40]`, which decodes to `57920 = 123456 mod 2¹⁶` — a modular
wrap, not the clamp `min(123456, 65535) = 65535` the claim requires. -/
theorem C8_counterexample :
    getObd2ResponsePhys initialPhysicsState 0x31 = some [0xE2, 0x40] ∧
    pyInt (initialPhysicsState.odometer * 10) = 123456 ∧
    (256 * 0xE2 + 0x40 : ℕ) = 123456 % 65536 ∧
    (256 * 0xE2 + 0x40 : ℕ) ≠ min 123456 65535 := by
  have hq : (initialPhysicsState.odometer * 10 : ℚ) = 123456 := by
    norm_num [initialPhysicsState]
  have hpy : pyInt (initialPhysicsState.odometer * 10) = 123456 := by
    unfold pyInt
    rw [hq, if_pos (by norm_num : (0:ℚ) ≤ 123456)]
    have hc : ((123456 : ℤ) : ℚ) = (123456 : ℚ) := by norm_num
    rw [← hc, Int.floor_intCast]
  refine ⟨?_, hpy, by norm_num, by norm_num⟩
  simp only [getObd2ResponsePhys]
  norm_num [hpy]
  decide

/-- C9 (amended).  After a physics tick the speed is always
nonnegative; and when the tick starts with `rpm ∈ [800, 6500]`,
throttle in `[0, 100]`, a nonnegative `dt` with `dt·3 ≤ 1` (the loop
runs at 100 Hz, so `dt ≈ 0.01`), the resulting rpm lies in
`[795, 6505]`: the first-order approach to the clamped target stays in
`[800, 6500]` and the `±5` sinusoidal fluctuation widens the band by
5 — the claimed bound `[800, 6500]` itself does not survive the
jitter. -/
theorem C9_physics_tick_bounds (st : PhysicsState) (dt j piVal : ℚ)
    (hdt0 : 0 ≤ dt) (hdt3 : dt * 3 ≤ 1)
    (hr1 : 800 ≤ st.rpm) (hr2 : st.rpm ≤ 6500)
    (ht1 : 0 ≤ st.throttle) (ht2 : st.throttle ≤ 100)
    (hj1 : -5 ≤ j) (hj2 : j ≤ 5) :
    0 ≤ (updatePhysics st dt j piVal).speed ∧
    795 ≤ (updatePhysics st dt j piVal).rpm ∧
    (updatePhysics st dt j piVal).rpm ≤ 6505 := by
  obtain ⟨s1, heq, hrpm, hth, hsp⟩ := updatePhysics_decomposition st dt j piVal
  rw [heq, updateGear_speed, updateRpm_speed, updateGear_rpm]
  refine ⟨hsp, ?_⟩
  exact updateRpm_bounds s1 dt j piVal hdt0 hdt3 (hrpm ▸ hr1) (hrpm ▸ hr2)
    (hth ▸ ht1) (hth ▸ ht2) hj1 hj2

/-- C9 witness: one nominal 10 ms tick from the fresh physics state
with zero jitter. -/
theorem C9_witness :
    ((0:ℚ) ≤ 1/100 ∧ (1/100 : ℚ) * 3 ≤ 1 ∧ 800 ≤ initialPhysicsState.rpm ∧
      initialPhysicsState.rpm ≤ 6500 ∧ (0:ℚ) ≤ initialPhysicsState.throttle ∧
      initialPhysicsState.throttle ≤ 100 ∧ (-5:ℚ) ≤ 0 ∧ (0:ℚ) ≤ 5) ∧
    (0 ≤ (updatePhysics initialPhysicsState (1/100) 0 (355/113)).speed ∧
      795 ≤ (updatePhysics initialPhysicsState (1/100) 0 (355/113)).rpm ∧
      (updatePhysics initialPhysicsState (1/100) 0 (355/113)).rpm ≤ 6505) :=
  ⟨⟨by norm_num, by norm_num, by norm_num [initialPhysicsState],
    by norm_num [initialPhysicsState], by norm_num [initialPhysicsState],
    by norm_num [initialPhysicsState], by norm_num, by norm_num⟩,
   C9_physics_tick_bounds initialPhysicsState (1/100) 0 (355/113)
     (by norm_num) (by norm_num) (by norm_num [initialPhysicsState])
     (by norm_num [initialPhysicsState]) (by norm_num [initialPhysicsState])
     (by norm_num [initialPhysicsState]) (by norm_num) (by norm_num)⟩

/-- C9 counterexample.  One nominal tick from the fresh physics state
(rpm 800, standing still) with the fluctuation `sin(10·t)·5` at its
minimum `-5` leaves the rpm at 795, outside the claimed `[800, 6500]`
band. -/
theorem C9_counterexample :
    (updatePhysics initialPhysicsState (1/100) (-5) (355/113)).rpm = 795 ∧
    ¬(800 ≤ (updatePhysics initialPhysicsState (1/100) (-5) (355/113)).rpm) := by
  have h : (updatePhysics initialPhysicsState (1/100) (-5) (355/113)).rpm = 795 := by
    norm_num [updatePhysics, updateRpm, updateGear, initialPhysicsState,
      gearRatioPhys, max_def, min_def]
  refine ⟨h, by rw [h]; norm_num⟩

/-- C10 (confirmed).  In the physics simulator, a frame with a valid
OBD arbitration id and at least 3 data bytes whose mode is not 0x01,
or whose mode-0x01 PID is outside {0x04, 0x05, 0x0C, 0x0D, 0x11, 0x2F,
0x31}, produces no transmission of any kind. -/
theorem C10_physics_ignores_unknown_requests (st : PhysicsState)
    (arbitrationId : ℕ) (data : List ℕ)
    (hid : arbitrationId = 0x7DF ∨ (0x7E0 ≤ arbitrationId ∧ arbitrationId ≤ 0x7E7))
    (hlen : 3 ≤ data.length)
    (h : data.getD 1 0 ≠ 0x01 ∨ data.getD 2 0 ∉ physicsPids) :
    processCanMessagePhys st arbitrationId data = none := by
  unfold processCanMessagePhys
  rw [if_neg (not_not_intro hid), if_neg (by omega : ¬(data.length < 3))]
  simp only
  rcases h with hmode | hpid
  · rw [if_neg (by intro hc; exact hmode hc.1)]
  · by_cases hcond : data.getD 1 0 = 0x01 ∧ 2 ≤ data.getD 0 0
    · rw [if_pos hcond, getObd2ResponsePhys_none st _ hpid]
    · rw [if_neg hcond]

/-- C10 witness: a mode-03 request on the broadcast id is ignored by
the physics simulator. -/
theorem C10_witness :
    (3 ≤ ([0x02, 0x03, 0x00, 0, 0, 0, 0, 0] : List ℕ).length) ∧
    processCanMessagePhys initialPhysicsState 0x7DF [0x02, 0x03, 0x00, 0, 0, 0, 0, 0] =
      none :=
  ⟨by decide,
   C10_physics_ignores_unknown_requests initialPhysicsState 0x7DF
     [0x02, 0x03, 0x00, 0, 0, 0, 0, 0] (Or.inl rfl) (by decide) (Or.inl (by decide))⟩

end CanSim
